import Mathlib

/-!
Verification of the Cervical Cancer Prediction service
(`backend/app/main.py`), a FastAPI application exposing two pre-trained
classifiers (an SVM and a Decision Tree) behind HTTP prediction endpoints.

The Python code is shallowly embedded:
* a Python `dict` of feature values is a `List (String × V)` of entries
  with `List.lookup` as subscripting and key membership (Python dict keys
  are unique, so first-match lookup coincides with dict lookup);
* a raised `HTTPException(status_code, detail)` or `KeyError` is the
  `Except.error` side of an `Except PyError` result; the `detail`
  f-string `"Missing features: {missing_features}"` is modelled by the
  structured list interpolated into it;
* the pickled scaler and classifier artifacts under `model_store/` are
  opaque: the handlers only ever call them on single-row batches
  (`scaler.transform([x])`, `model.predict(...)[0]`), so each is modelled
  by its action on one row;
* values are an arbitrary type `V`: the service passes them through
  without inspecting them.
-/

/-- The errors the embedded Python code can raise: FastAPI's
`HTTPException(status_code=..., detail=...)` (the detail here is the
`missing_features` list interpolated into the message string), and a
`KeyError` from dict subscripting. -/
inductive PyError where
  | httpException (status_code : Nat) (detail : List String)
  | keyError (key : String)
  deriving DecidableEq, Repr

/-- An opaque fitted scaler artifact (`model_store/svm/scaler.pkl`),
modelled by its action on a single row since the handler only calls
`scaler.transform([x])` on one-row batches. -/
structure Scaler (V : Type) where
  transform1 : List V → List V

/-- An opaque trained classifier artifact (`model_store/{svm,dt}/model.pkl`),
modelled by the integer class label it assigns to a single row, since the
handlers only call `model.predict(rows)[0]` on one-row batches and coerce
the label with `int(...)`. -/
structure Classifier (V : Type) where
  predict1 : List V → Int

/-- The request body schema `PredictRequest`: a JSON object with a `data`
field holding the feature-name-to-value mapping. -/
structure PredictRequest (V : Type) where
  data : List (String × V)

/-- The JSON object returned by both prediction endpoints:
`{"model": ..., "prediction": ...}`. -/
structure PredictResponse where
  model : String
  prediction : Int
  deriving DecidableEq, Repr

/-- The list comprehension `[input_data[f] for f in feature_list]`:
subscripting a dict raises `KeyError` if the key is absent, so the
comprehension is a fallible fold over the feature list. -/
def dictComprehension {V : Type} (input_data : List (String × V)) :
    List String → Except PyError (List V)
  | [] => Except.ok []
  | f :: fs =>
    match input_data.lookup f with
    | some v => (dictComprehension input_data fs).map (fun vs => v :: vs)
    | none => Except.error (PyError.keyError f)

/-- `build_feature_vector(input_data, feature_list)` from
`backend/app/main.py`: compute the features of `feature_list` missing from
`input_data`; if any, raise `HTTPException(400, "Missing features: ...")`;
otherwise return the values in the feature list's order. -/
def build_feature_vector {V : Type} (input_data : List (String × V))
    (feature_list : List String) : Except PyError (List V) :=
  let missing_features := feature_list.filter fun f => (input_data.lookup f).isNone
  if missing_features.isEmpty then
    dictComprehension input_data feature_list
  else
    Except.error (PyError.httpException 400 missing_features)

/-- `predict_svm(request, payload)`: build the ordered feature vector
against the SVM feature list, scale it, run the SVM classifier on the
scaled row, and answer `{"model": "SVM", "prediction": int(label)}`.
The module-level artifacts `svm_model`, `svm_scaler`, `svm_features` are
passed as explicit parameters. -/
def predict_svm {V : Type} (svm_model : Classifier V) (svm_scaler : Scaler V)
    (svm_features : List String) (payload : PredictRequest V) :
    Except PyError PredictResponse :=
  match build_feature_vector payload.data svm_features with
  | Except.error e => Except.error e
  | Except.ok x =>
    let x_scaled := svm_scaler.transform1 x
    let prediction := svm_model.predict1 x_scaled
    Except.ok { model := "SVM", prediction := prediction }

/-- `predict_dt(request, payload)`: build the ordered feature vector
against the Decision Tree feature list and run the Decision Tree
classifier directly on the raw row (no scaling), answering
`{"model": "Decision Tree", "prediction": int(label)}`. -/
def predict_dt {V : Type} (dt_model : Classifier V)
    (dt_features : List String) (payload : PredictRequest V) :
    Except PyError PredictResponse :=
  match build_feature_vector payload.data dt_features with
  | Except.error e => Except.error e
  | Except.ok x =>
    let prediction := dt_model.predict1 x
    Except.ok { model := "Decision Tree", prediction := prediction }

/-- An invocation of one of the loaded model artifacts. -/
inductive ModelEvent where
  | scalerTransform
  | modelPredict
  deriving DecidableEq, Repr

/-- `predict_svm` instrumented with the sequence of artifact invocations it
performs, in order: nothing on the validation-error path, and one
`scaler.transform` followed by one `model.predict` on the success path. -/
def predict_svm_traced {V : Type} (svm_model : Classifier V) (svm_scaler : Scaler V)
    (svm_features : List String) (payload : PredictRequest V) :
    Except PyError PredictResponse × List ModelEvent :=
  match build_feature_vector payload.data svm_features with
  | Except.error e => (Except.error e, [])
  | Except.ok x =>
    let x_scaled := svm_scaler.transform1 x
    let prediction := svm_model.predict1 x_scaled
    (Except.ok { model := "SVM", prediction := prediction },
      [ModelEvent.scalerTransform, ModelEvent.modelPredict])

/-- `predict_dt` instrumented with the sequence of artifact invocations it
performs, in order: nothing on the validation-error path, and one
`model.predict` on the success path. -/
def predict_dt_traced {V : Type} (dt_model : Classifier V)
    (dt_features : List String) (payload : PredictRequest V) :
    Except PyError PredictResponse × List ModelEvent :=
  match build_feature_vector payload.data dt_features with
  | Except.error e => (Except.error e, [])
  | Except.ok x =>
    (Except.ok { model := "Decision Tree", prediction := dt_model.predict1 x },
      [ModelEvent.modelPredict])

/-- `health_check()`: the `GET /` route handler, returning the fixed
status payload. -/
def health_check : List (String × String) :=
  [("status", "API is running successfully")]

/-- Modelled from the spec: FastAPI (an external collaborator, not under
`src/`) wraps a route handler's normal return value in an HTTP response
with status code 200. `GET /` therefore answers 200 with the
`health_check` payload. -/
def get_root : Nat × List (String × String) :=
  (200, health_check)

/-- `rate_limit_handler(request, exc)`: the global `RateLimitExceeded`
exception handler, returning `JSONResponse` with status 429 and the fixed
retry-later body. -/
def rate_limit_handler : Nat × List (String × String) :=
  (429, [("detail", "Too many requests. Please try again later.")])

/-- The quota of the `@limiter.limit("10/minute")` decorator on both
prediction routes: 10 requests per one-minute window per client. -/
def rate_limit_quota : Nat := 10

/-- Modelled from the spec: the slowapi rate-limiting middleware (an
external collaborator, not under `src/`) counts the requests a client has
already made in the current one-minute window; once the quota declared on
the route is used up it raises `RateLimitExceeded` before the route
handler runs, which `rate_limit_handler` turns into the 429 response.
`priorInWindow` is the number of requests already served to this client in
the window, and `handler` is the route handler the middleware guards. -/
def serve_rate_limited {B : Type} (priorInWindow : Nat)
    (handler : Unit → B) : (Nat × List (String × String)) ⊕ B :=
  if rate_limit_quota ≤ priorInWindow then
    Sum.inl rate_limit_handler
  else
    Sum.inr (handler ())

/-! ### Helper lemmas about dict lookup -/

theorem lookup_eq_none_iff {V : Type} (d : List (String × V)) (k : String) :
    d.lookup k = none ↔ k ∉ d.map Prod.fst := by
  induction d with
  | nil => simp
  | cons p d ih =>
    obtain ⟨a, b⟩ := p
    by_cases h : k = a
    · subst h; simp [List.lookup_cons]
    · simp [List.lookup_cons, h, Ne.symm h, ih, beq_false_of_ne h]

theorem mem_of_lookup_eq_some {V : Type} {d : List (String × V)} {k : String}
    {v : V} (h : d.lookup k = some v) : (k, v) ∈ d := by
  induction d with
  | nil => simp at h
  | cons p d ih =>
    obtain ⟨a, b⟩ := p
    by_cases hk : k = a
    · subst hk
      simp [List.lookup_cons] at h
      simp [h]
    · simp [List.lookup_cons, beq_false_of_ne hk] at h
      simp [ih h]

theorem lookup_eq_some_of_mem {V : Type} {d : List (String × V)}
    (hn : (d.map Prod.fst).Nodup) {k : String} {v : V} (h : (k, v) ∈ d) :
    d.lookup k = some v := by
  induction d with
  | nil => simp at h
  | cons p d ih =>
    obtain ⟨a, b⟩ := p
    simp only [List.map_cons, List.nodup_cons] at hn
    rcases List.mem_cons.mp h with h₁ | h₂
    · obtain ⟨hk, hv⟩ := Prod.mk.injEq .. ▸ h₁
      subst hk; subst hv
      simp [List.lookup_cons]
    · by_cases hk : k = a
      · subst hk
        exact absurd (List.mem_map.mpr ⟨(k, v), h₂, rfl⟩) hn.1
      · simp only [List.lookup_cons, beq_false_of_ne hk]
        exact ih hn.2 h₂

theorem perm_lookup_eq {V : Type} {d₁ d₂ : List (String × V)} (hp : d₁.Perm d₂)
    (hn : (d₁.map Prod.fst).Nodup) (k : String) : d₁.lookup k = d₂.lookup k := by
  have hn₂ : (d₂.map Prod.fst).Nodup := ((hp.map Prod.fst).nodup_iff).mp hn
  cases h : d₁.lookup k with
  | none =>
    have hk : k ∉ d₂.map Prod.fst := fun hm =>
      ((lookup_eq_none_iff d₁ k).mp h) (((hp.map Prod.fst).mem_iff).mpr hm)
    exact ((lookup_eq_none_iff d₂ k).mpr hk).symm
  | some v =>
    exact (lookup_eq_some_of_mem hn₂ (hp.mem_iff.mp (mem_of_lookup_eq_some h))).symm

/-! ### Helper lemmas about the comprehension and `build_feature_vector` -/

theorem dictComprehension_complete {V : Type} (d : List (String × V))
    (fs : List String) (h : ∀ f ∈ fs, (d.lookup f).isSome) :
    ∃ vs, dictComprehension d fs = Except.ok vs ∧ vs.length = fs.length ∧
      ∀ i : Nat, vs[i]? = fs[i]?.bind fun f => d.lookup f := by
  induction fs with
  | nil => exact ⟨[], rfl, rfl, fun i => by simp [dictComprehension]⟩
  | cons f fs ih =>
    obtain ⟨v, hv⟩ := Option.isSome_iff_exists.mp (h f (by simp))
    obtain ⟨vs, hvs, hlen, hidx⟩ := ih fun g hg => h g (by simp [hg])
    refine ⟨v :: vs, ?_, by simp [hlen], ?_⟩
    · simp [dictComprehension, hv, hvs, Except.map]
    · intro i
      cases i with
      | zero => simp [hv]
      | succ j => simpa using hidx j

theorem dictComprehension_congr {V : Type} {d₁ d₂ : List (String × V)}
    (fs : List String) (h : ∀ f ∈ fs, d₁.lookup f = d₂.lookup f) :
    dictComprehension d₁ fs = dictComprehension d₂ fs := by
  induction fs with
  | nil => rfl
  | cons f fs ih =>
    have hf : d₁.lookup f = d₂.lookup f := h f (by simp)
    have hrest := ih fun g hg => h g (by simp [hg])
    simp only [dictComprehension, hf, hrest]

theorem build_feature_vector_congr {V : Type} {d₁ d₂ : List (String × V)}
    (fl : List String) (h : ∀ f ∈ fl, d₁.lookup f = d₂.lookup f) :
    build_feature_vector d₁ fl = build_feature_vector d₂ fl := by
  have hfilter : (fl.filter fun f => (d₁.lookup f).isNone)
      = fl.filter fun f => (d₂.lookup f).isNone :=
    List.filter_congr fun f hf => by rw [h f hf]
  simp only [build_feature_vector, hfilter]
  by_cases he : (fl.filter fun f => (d₂.lookup f).isNone).isEmpty
  · simp [he, dictComprehension_congr fl h]
  · simp [he]

theorem missing_isEmpty_iff {V : Type} (d : List (String × V)) (fl : List String) :
    (fl.filter fun f => (d.lookup f).isNone).isEmpty = true ↔
      ∀ f ∈ fl, (d.lookup f).isSome := by
  rw [List.isEmpty_iff, List.filter_eq_nil_iff]
  constructor
  · intro h f hf
    have := h f hf
    simpa [Option.isNone_iff_eq_none, Option.isSome_iff_ne_none] using this
  · intro h f hf
    simp [Option.isNone_iff_eq_none, Option.isSome_iff_ne_none.mp (h f hf)]

theorem build_feature_vector_complete_aux {V : Type} (d : List (String × V))
    (fl : List String) (h : ∀ f ∈ fl, (d.lookup f).isSome) :
    ∃ vs, build_feature_vector d fl = Except.ok vs ∧ vs.length = fl.length ∧
      ∀ i : Nat, vs[i]? = fl[i]?.bind fun f => d.lookup f := by
  obtain ⟨vs, hvs, hlen, hidx⟩ := dictComprehension_complete d fl h
  refine ⟨vs, ?_, hlen, hidx⟩
  simp only [build_feature_vector, (missing_isEmpty_iff d fl).mpr h, if_true, hvs]

/-! ### Claim theorems -/

/-- C1: for any input mapping containing every name of the bundle's feature
list, `build_feature_vector` returns the values of the mapping looked up at
each feature name in the feature list's declared order — the result has
exactly the feature list's length and column order — keys of the input not
in the feature list have no effect on the result, and values (of an
arbitrary type `V`, never inspected) are passed through unmodified. -/
theorem build_feature_vector_complete_spec {V : Type}
    (input_data : List (String × V)) (feature_list : List String)
    (h : ∀ f ∈ feature_list, (List.lookup f input_data).isSome) :
    ∃ vs, build_feature_vector input_data feature_list = Except.ok vs ∧
      vs.length = feature_list.length ∧
      (∀ i : Nat, vs[i]? = feature_list[i]?.bind fun f => List.lookup f input_data) ∧
      ∀ k v, k ∉ feature_list →
        build_feature_vector ((k, v) :: input_data) feature_list = Except.ok vs := by
  obtain ⟨vs, hok, hlen, hidx⟩ := build_feature_vector_complete_aux input_data feature_list h
  refine ⟨vs, hok, hlen, hidx, fun k v hk => ?_⟩
  rw [build_feature_vector_congr feature_list fun f hf => ?_, hok]
  have hne : f ≠ k := fun he => hk (he ▸ hf)
  simp [List.lookup_cons, beq_false_of_ne hne]

/-- Witness for C1 at a concrete input: the mapping holds both required
features plus an extra key; the output is the two values in feature-list
order. -/
theorem build_feature_vector_complete_spec_witness :
    (∀ f ∈ ["Age", "Smokes"],
      (List.lookup f [("Smokes", (0 : Int)), ("Age", 30), ("Extra", 7)]).isSome) ∧
    ∃ vs, build_feature_vector [("Smokes", (0 : Int)), ("Age", 30), ("Extra", 7)]
        ["Age", "Smokes"] = Except.ok vs ∧
      vs.length = (["Age", "Smokes"] : List String).length ∧
      (∀ i : Nat, vs[i]? = (["Age", "Smokes"] : List String)[i]?.bind fun f =>
        List.lookup f [("Smokes", (0 : Int)), ("Age", 30), ("Extra", 7)]) ∧
      ∀ k v, k ∉ (["Age", "Smokes"] : List String) →
        build_feature_vector ((k, v) :: [("Smokes", (0 : Int)), ("Age", 30), ("Extra", 7)])
          ["Age", "Smokes"] = Except.ok vs :=
  ⟨by decide, build_feature_vector_complete_spec _ _ (by decide)⟩

/-- C2: `build_feature_vector` fails exactly when some required feature is
absent from the input mapping; every failure is the `HTTPException` with
status 400 whose detail is the list of missing features; that list holds a
name exactly when it is a required feature absent from the input — every
missing name and no present one — and it is a sublist of the feature list,
so it keeps the bundle's declared order; no missing value is defaulted. -/
theorem build_feature_vector_missing_spec {V : Type}
    (input_data : List (String × V)) (feature_list : List String) :
    ((∃ f ∈ feature_list, List.lookup f input_data = none) ↔
      ∃ e, build_feature_vector input_data feature_list = Except.error e) ∧
    (∀ e, build_feature_vector input_data feature_list = Except.error e →
      e = PyError.httpException 400
        (feature_list.filter fun f => (List.lookup f input_data).isNone)) ∧
    (∀ m, m ∈ (feature_list.filter fun f => (List.lookup f input_data).isNone) ↔
      m ∈ feature_list ∧ List.lookup m input_data = none) ∧
    (feature_list.filter fun f => (List.lookup f input_data).isNone).Sublist
      feature_list := by
  refine ⟨?_, ?_, fun m => by simp [List.mem_filter, Option.isNone_iff_eq_none],
    List.filter_sublist _⟩ <;>
    by_cases h : (feature_list.filter fun f => (List.lookup f input_data).isNone).isEmpty
  · have hall := (missing_isEmpty_iff input_data feature_list).mp h
    obtain ⟨vs, hok, -, -⟩ := build_feature_vector_complete_aux input_data feature_list hall
    constructor
    · rintro ⟨f, hf, hnone⟩
      exact absurd (hall f hf) (by simp [hnone])
    · rintro ⟨e, he⟩
      rw [hok] at he
      exact absurd he (by simp)
  · constructor
    · intro _
      exact ⟨PyError.httpException 400
          (feature_list.filter fun f => (List.lookup f input_data).isNone),
        by simp [build_feature_vector, h]⟩
    · intro _
      have hne : feature_list.filter (fun f => (List.lookup f input_data).isNone) ≠ [] := by
        simpa [List.isEmpty_iff] using h
      obtain ⟨m, hm⟩ := List.exists_mem_of_ne_nil _ hne
      obtain ⟨hmem, hnone⟩ := List.mem_filter.mp hm
      exact ⟨m, hmem, Option.isNone_iff_eq_none.mp hnone⟩
  · intro e he
    have hall := (missing_isEmpty_iff input_data feature_list).mp h
    obtain ⟨vs, hok, -, -⟩ := build_feature_vector_complete_aux input_data feature_list hall
    rw [hok] at he
    exact absurd he (by simp)
  · intro e he
    simp only [build_feature_vector, h, if_neg] at he
    simp at he
    exact he.symm

/-- C10: on an empty feature list `build_feature_vector` succeeds on every
input mapping — including the empty one — with the empty vector; and on any
feature list and input mapping it either raises the 400 `HTTPException` or
returns a vector: the comprehension's latent `KeyError` is unreachable.
(The embedding is a pure function, so neither outcome mutates the input
mapping or the feature list.) -/
theorem build_feature_vector_total {V : Type} :
    (∀ input_data : List (String × V),
      build_feature_vector input_data [] = Except.ok []) ∧
    ∀ (input_data : List (String × V)) (feature_list : List String),
      (∃ detail, build_feature_vector input_data feature_list =
        Except.error (PyError.httpException 400 detail)) ∨
      ∃ vs, build_feature_vector input_data feature_list = Except.ok vs := by
  refine ⟨fun d => rfl, fun d fl => ?_⟩
  by_cases h : (fl.filter fun f => (List.lookup f d).isNone).isEmpty
  · obtain ⟨vs, hok, -, -⟩ :=
      build_feature_vector_complete_aux d fl ((missing_isEmpty_iff d fl).mp h)
    exact Or.inr ⟨vs, hok⟩
  · exact Or.inl ⟨fl.filter fun f => (List.lookup f d).isNone,
      by simp [build_feature_vector, h]⟩

/-- C3: `predict_svm` builds the feature vector from the request data
against the SVM feature list, applies the SVM scaler to the single-row
vector, invokes the SVM classifier on the scaled row, and answers
`{"model": "SVM", "prediction": <label>}`; a `build_feature_vector` error
propagates unchanged, and the embedding being a pure function of its
arguments there are no other side effects. -/
theorem predict_svm_spec {V : Type} (svm_model : Classifier V)
    (svm_scaler : Scaler V) (svm_features : List String)
    (payload : PredictRequest V) :
    predict_svm svm_model svm_scaler svm_features payload =
      (build_feature_vector payload.data svm_features).map fun x =>
        { model := "SVM",
          prediction := svm_model.predict1 (svm_scaler.transform1 x) } := by
  unfold predict_svm
  cases build_feature_vector payload.data svm_features <;> rfl

/-- C4: `predict_dt` builds the vector against the Decision Tree feature
list, passes the unscaled vector directly to the Decision Tree classifier,
and answers `{"model": "Decision Tree", "prediction": <label>}`; it
coincides with the SVM handler run on the Decision Tree bundle with the
identity (absent) scaler, up to the reported model name. -/
theorem predict_dt_spec {V : Type} (dt_model : Classifier V)
    (dt_features : List String) (payload : PredictRequest V) :
    (predict_dt dt_model dt_features payload =
      (build_feature_vector payload.data dt_features).map fun x =>
        { model := "Decision Tree", prediction := dt_model.predict1 x }) ∧
    predict_dt dt_model dt_features payload =
      (predict_svm dt_model ⟨fun x => x⟩ dt_features payload).map fun r =>
        { r with model := "Decision Tree" } := by
  unfold predict_dt predict_svm
  cases build_feature_vector payload.data dt_features <;> exact ⟨rfl, rfl⟩

/-- C5: on request data missing at least one required feature, both
handlers answer the 400 `HTTPException` with an empty artifact-invocation
trace — neither the scaler nor either classifier is called, whatever those
opaque artifacts are — and on every path each artifact invocation occurs at
most once in the trace: no retry happens anywhere. -/
theorem validation_before_models {V : Type} (svm_model : Classifier V)
    (svm_scaler : Scaler V) (dt_model : Classifier V)
    (features : List String) (payload : PredictRequest V)
    (h : ∃ f ∈ features, List.lookup f payload.data = none) :
    (predict_svm_traced svm_model svm_scaler features payload =
      (Except.error (PyError.httpException 400
        (features.filter fun f => (List.lookup f payload.data).isNone)), [])) ∧
    (predict_dt_traced dt_model features payload =
      (Except.error (PyError.httpException 400
        (features.filter fun f => (List.lookup f payload.data).isNone)), [])) ∧
    ∀ q : PredictRequest V,
      (predict_svm_traced svm_model svm_scaler features q).2.Nodup ∧
      (predict_dt_traced dt_model features q).2.Nodup := by
  obtain ⟨f, hf, hnone⟩ := h
  have hne : ¬ (features.filter fun g => (List.lookup g payload.data).isNone).isEmpty := by
    intro hemp
    exact absurd ((missing_isEmpty_iff payload.data features).mp hemp f hf)
      (by simp [hnone])
  have herr : build_feature_vector payload.data features =
      Except.error (PyError.httpException 400
        (features.filter fun g => (List.lookup g payload.data).isNone)) := by
    simp [build_feature_vector, hne]
  refine ⟨by simp [predict_svm_traced, herr], by simp [predict_dt_traced, herr],
    fun q => ⟨?_, ?_⟩⟩
  · unfold predict_svm_traced
    cases build_feature_vector q.data features <;> simp
  · unfold predict_dt_traced
    cases build_feature_vector q.data features <;> simp

/-- Witness for C5 at a concrete input: an empty data mapping misses the
required feature "Age", so both handlers answer the 400 error and invoke no
artifact. -/
theorem validation_before_models_witness :
    (∃ f ∈ ["Age"], List.lookup f ([] : List (String × Int)) = none) ∧
    ((predict_svm_traced ⟨fun _ => 0⟩ ⟨fun x => x⟩ ["Age"]
        (⟨[]⟩ : PredictRequest Int) =
      (Except.error (PyError.httpException 400
        (["Age"].filter fun f => (List.lookup f ([] : List (String × Int))).isNone)),
        [])) ∧
    (predict_dt_traced ⟨fun _ => 1⟩ ["Age"] (⟨[]⟩ : PredictRequest Int) =
      (Except.error (PyError.httpException 400
        (["Age"].filter fun f => (List.lookup f ([] : List (String × Int))).isNone)),
        [])) ∧
    ∀ q : PredictRequest Int,
      (predict_svm_traced ⟨fun _ => 0⟩ ⟨fun x => x⟩ ["Age"] q).2.Nodup ∧
      (predict_dt_traced ⟨fun _ => 1⟩ ["Age"] q).2.Nodup) :=
  ⟨by decide, validation_before_models ⟨fun _ => 0⟩ ⟨fun x => x⟩ ⟨fun _ => 1⟩
    ["Age"] ⟨[]⟩ (by decide)⟩

/-- C6: both handlers are deterministic functions of the request data
viewed as a key-to-value mapping: permuting the entries of a
duplicate-key-free data mapping changes neither prediction (the bundle's
feature list, not the input's entry order, governs), and repeating the very
same request yields the very same response, the handlers being pure
functions. -/
theorem prediction_deterministic {V : Type} (svm_model : Classifier V)
    (svm_scaler : Scaler V) (dt_model : Classifier V)
    (svm_features dt_features : List String) (d₁ d₂ : List (String × V))
    (hp : d₁.Perm d₂) (hn : (d₁.map Prod.fst).Nodup) :
    (predict_svm svm_model svm_scaler svm_features ⟨d₁⟩ =
      predict_svm svm_model svm_scaler svm_features ⟨d₂⟩) ∧
    (predict_dt dt_model dt_features ⟨d₁⟩ =
      predict_dt dt_model dt_features ⟨d₂⟩) ∧
    ∀ payload : PredictRequest V,
      predict_svm svm_model svm_scaler svm_features payload =
        predict_svm svm_model svm_scaler svm_features payload ∧
      predict_dt dt_model dt_features payload =
        predict_dt dt_model dt_features payload := by
  have hsvm := build_feature_vector_congr svm_features
    fun f _ => perm_lookup_eq hp hn f
  have hdt := build_feature_vector_congr dt_features
    fun f _ => perm_lookup_eq hp hn f
  exact ⟨by simp only [predict_svm, hsvm], by simp only [predict_dt, hdt],
    fun payload => ⟨rfl, rfl⟩⟩

/-- Witness for C6 at a concrete input: the same two entries in the two
possible insertion orders give the same responses. -/
theorem prediction_deterministic_witness :
    ([("Age", (30 : Int)), ("Smokes", 0)].Perm [("Smokes", (0 : Int)), ("Age", 30)]) ∧
    (([("Age", (30 : Int)), ("Smokes", 0)].map Prod.fst).Nodup) ∧
    ((predict_svm ⟨fun _ => 0⟩ ⟨fun x => x⟩ ["Age", "Smokes"]
        (⟨[("Age", (30 : Int)), ("Smokes", 0)]⟩ : PredictRequest Int) =
      predict_svm ⟨fun _ => 0⟩ ⟨fun x => x⟩ ["Age", "Smokes"]
        (⟨[("Smokes", (0 : Int)), ("Age", 30)]⟩ : PredictRequest Int)) ∧
    (predict_dt ⟨fun _ => 1⟩ ["Age"]
        (⟨[("Age", (30 : Int)), ("Smokes", 0)]⟩ : PredictRequest Int) =
      predict_dt ⟨fun _ => 1⟩ ["Age"]
        (⟨[("Smokes", (0 : Int)), ("Age", 30)]⟩ : PredictRequest Int)) ∧
    ∀ payload : PredictRequest Int,
      predict_svm ⟨fun _ => 0⟩ ⟨fun x => x⟩ ["Age", "Smokes"] payload =
        predict_svm ⟨fun _ => 0⟩ ⟨fun x => x⟩ ["Age", "Smokes"] payload ∧
      predict_dt ⟨fun _ => 1⟩ ["Age"] payload =
        predict_dt ⟨fun _ => 1⟩ ["Age"] payload) :=
  ⟨by decide, by decide,
    prediction_deterministic ⟨fun _ => 0⟩ ⟨fun x => x⟩ ⟨fun _ => 1⟩
      ["Age", "Smokes"] ["Age"] _ _ (by decide) (by decide)⟩

/-- C7: under the data model's guarantee that the trained classifiers only
emit the integer class labels 0 and 1, every request whose data mapping
contains all required features (extra keys allowed) makes both endpoints
answer a prediction that is exactly 0 or exactly 1. -/
theorem prediction_label_range {V : Type} (svm_model : Classifier V)
    (svm_scaler : Scaler V) (dt_model : Classifier V)
    (svm_features dt_features : List String) (payload : PredictRequest V)
    (h01svm : ∀ x, svm_model.predict1 x = 0 ∨ svm_model.predict1 x = 1)
    (h01dt : ∀ x, dt_model.predict1 x = 0 ∨ dt_model.predict1 x = 1)
    (hsvm : ∀ f ∈ svm_features, (List.lookup f payload.data).isSome)
    (hdt : ∀ f ∈ dt_features, (List.lookup f payload.data).isSome) :
    (∃ r, predict_svm svm_model svm_scaler svm_features payload = Except.ok r ∧
      (r.prediction = 0 ∨ r.prediction = 1)) ∧
    ∃ r, predict_dt dt_model dt_features payload = Except.ok r ∧
      (r.prediction = 0 ∨ r.prediction = 1) := by
  obtain ⟨x, hx, -, -⟩ :=
    build_feature_vector_complete_aux payload.data svm_features hsvm
  obtain ⟨y, hy, -, -⟩ :=
    build_feature_vector_complete_aux payload.data dt_features hdt
  refine ⟨⟨PredictResponse.mk "SVM" (svm_model.predict1 (svm_scaler.transform1 x)),
      by simp [predict_svm, hx], h01svm _⟩,
    ⟨PredictResponse.mk "Decision Tree" (dt_model.predict1 y),
      by simp [predict_dt, hy], h01dt _⟩⟩

/-- Witness for C7 at a concrete input: constant classifiers emitting 0 and
1, and a data mapping holding the one required feature plus an extra key. -/
theorem prediction_label_range_witness :
    (∀ x : List Int, (Classifier.mk fun _ => (0 : Int)).predict1 x = 0 ∨
      (Classifier.mk fun _ => (0 : Int)).predict1 x = 1) ∧
    (∀ x : List Int, (Classifier.mk fun _ => (1 : Int)).predict1 x = 0 ∨
      (Classifier.mk fun _ => (1 : Int)).predict1 x = 1) ∧
    (∀ f ∈ ["Age"], (List.lookup f [("Age", (30 : Int)), ("Extra", 7)]).isSome) ∧
    ((∃ r, predict_svm ⟨fun _ => 0⟩ ⟨fun x => x⟩ ["Age"]
        (⟨[("Age", (30 : Int)), ("Extra", 7)]⟩ : PredictRequest Int) = Except.ok r ∧
      (r.prediction = 0 ∨ r.prediction = 1)) ∧
    ∃ r, predict_dt ⟨fun _ => 1⟩ ["Age"]
        (⟨[("Age", (30 : Int)), ("Extra", 7)]⟩ : PredictRequest Int) = Except.ok r ∧
      (r.prediction = 0 ∨ r.prediction = 1)) :=
  ⟨fun _ => Or.inl rfl, fun _ => Or.inr rfl, by decide,
    prediction_label_range ⟨fun _ => 0⟩ ⟨fun x => x⟩ ⟨fun _ => 1⟩ ["Age"] ["Age"]
      ⟨[("Age", (30 : Int)), ("Extra", 7)]⟩
      (fun _ => Or.inl rfl) (fun _ => Or.inr rfl) (by decide) (by decide)⟩

/-- C8: the health check takes no input, never fails, returns exactly the
fixed payload `{"status": "API is running successfully"}` — served with
status 200 — and, being a constant, touches no state. -/
theorem health_check_spec :
    get_root = (200, [("status", "API is running successfully")]) ∧
    health_check = [("status", "API is running successfully")] :=
  ⟨rfl, rfl⟩

/-- C9: once a client has exhausted the 10-requests-per-minute quota — in
particular on the 11th request within one minute, when 10 requests were
already served — the middleware answers status 429 with body
`{"detail": "Too many requests. Please try again later."}`, and this
response is the same for every possible guarded handler: the prediction
handler never runs for that request. -/
theorem rate_limit_spec {B : Type} (priorInWindow : Nat)
    (h : rate_limit_quota ≤ priorInWindow) :
    ∀ handler : Unit → B, serve_rate_limited priorInWindow handler =
      Sum.inl (429, [("detail", "Too many requests. Please try again later.")]) := by
  intro handler
  simp [serve_rate_limited, h, rate_limit_handler]

/-- Witness for C9 at the concrete boundary: the 11th request of the
window (10 already served) is rejected whatever the handler would say. -/
theorem rate_limit_spec_witness :
    rate_limit_quota ≤ 10 ∧
    ∀ handler : Unit → Except PyError PredictResponse,
      serve_rate_limited 10 handler =
        Sum.inl (429, [("detail", "Too many requests. Please try again later.")]) :=
  ⟨by decide, rate_limit_spec 10 (by decide)⟩
